import Mathlib

/-!
Verification of the build-request rendering pipeline of osbs-client
(`osbs/build/build_requestv2.py`).

The Python classes `BaseBuildRequest` and `BuildRequestV2` are shallowly
embedded: the mutable build-request object becomes an explicit state record
`St`, the JSON template document becomes the record `Doc`, and each method
becomes a Lean function on these records.  Fallible methods (those that can
raise `OsbsValidationException`, `OsbsException`, `RuntimeError`, or an
uncaught `ValueError`) return `Except Err _`.

External collaborators whose code is not part of this repository snapshot
(the sanitizer `sanitize_strings_for_openshift`, YAML/JSON serialization,
`git_repo_humanish_part_from_uri`, the config-map API and the compiled
regular expression `ISOLATED_RELEASE_FORMAT`) are modelled as abstract
function parameters collected in the record `Ext`.
-/

set_option autoImplicit false

namespace Osbs

/-- Equality decision on `Except` values (needed to evaluate witnesses). -/
instance exceptDecEq {ε α : Type} [DecidableEq ε] [DecidableEq α] :
    DecidableEq (Except ε α) := fun a b => by
  cases a with
  | error e =>
    cases b with
    | error f =>
      exact if h : e = f then isTrue (by rw [h]) else isFalse (by simp [h])
    | ok y => exact isFalse (by simp)
  | ok x =>
    cases b with
    | error f => exact isFalse (by simp)
    | ok y =>
      exact if h : x = y then isTrue (by rw [h]) else isFalse (by simp [h])

/-! String primitives.  The Lean library versions (`String.splitOn`,
`String.endsWith`, ...) are defined by well-founded recursion or on
byte positions, which the kernel cannot evaluate; the same operations are
defined here structurally on the underlying character lists, mirroring the
Python `str` operations used by the code. -/

/-- Python `s.endswith(suffix)`. -/
def strEndsWith (s suffix : String) : Bool :=
  suffix.data.isSuffixOf s.data

/-- Python `s.startswith(p)`. -/
def strStartsWith (s p : String) : Bool :=
  p.data.isPrefixOf s.data

/-- Python `s[:-n]` for `0 < n ≤ len(s)`: drop the last `n` characters. -/
def strDropRight (s : String) (n : Nat) : String :=
  ⟨s.data.take (s.data.length - n)⟩

/-- Split a character list on a separator character; the result always has
one more part than there are separators (Python `s.split(sep)`). -/
def splitOnChar (c : Char) : List Char → List (List Char)
  | [] => [[]]
  | x :: xs =>
    match splitOnChar c xs with
    | [] => if x = c then [[], []] else [[x]]
    | y :: ys => if x = c then [] :: y :: ys else (x :: y) :: ys

/-- Python `s.split(c)` for a one-character separator. -/
def strSplitOnChar (c : Char) (s : String) : List String :=
  (splitOnChar c s.data).map (fun l => ⟨l⟩)

/-- Join strings with a one-character separator (Python `c.join(parts)`). -/
def strIntercalateChar (c : Char) : List String → String
  | [] => ""
  | [s] => s
  | s :: rest => s ++ ⟨[c]⟩ ++ strIntercalateChar c rest

/-- Python truthiness of an optional string: `None` and `''` are falsy. -/
def truthy : Option String → Bool
  | none => false
  | some s => !(s == "")

/-- Insert-or-update on an association list, mirroring a Python `dict`
assignment `m[k] = v`: an existing binding is updated in place, a new key is
appended at the end (Python dicts preserve insertion order). -/
def alSet {β : Type} (m : List (String × β)) (k : String) (v : β) :
    List (String × β) :=
  match m with
  | [] => [(k, v)]
  | (k', v') :: rest =>
    if k' = k then (k, v) :: rest else (k', v') :: alSet rest k v

/-- Python `dict.update`: every binding of `other` is written into `m`,
keys of `other` winning on conflict. -/
def alUpdate {β : Type} (m other : List (String × β)) : List (String × β) :=
  other.foldl (fun acc kv => alSet acc kv.1 kv.2) m

/-- Key lookup on an association list (Python `dict` read access). -/
def alGet {β : Type} (m : List (String × β)) (k : String) : Option β :=
  match m with
  | [] => none
  | (k', v') :: rest => if k' = k then some v' else alGet rest k

/-- One entry of `spec.triggers`: the fields the code reads or writes
(`type`, `imageChange.from.kind`, `imageChange.from.name`). -/
structure Trigger where
  typ : String
  fromKind : String
  fromName : Option String
  deriving DecidableEq, Repr

/-- Value of an environment entry in `spec.strategy.customStrategy.env`:
either a plain `value` or a `valueFrom.configMapKeyRef`. -/
inductive EnvVal where
  | plain (v : String)
  | configMapKeyRef (nm k : String)
  deriving DecidableEq, Repr

/-- An entry of `spec.strategy.customStrategy.env`. -/
structure EnvVar where
  name : String
  val : EnvVal
  deriving DecidableEq, Repr

/-- An entry of `spec.strategy.customStrategy.secrets`:
`secretSource.name` and `mountPath`. -/
structure SecretMount where
  name : String
  mountPath : String
  deriving DecidableEq, Repr

/-- The build-request template document: exactly the paths read or written
by `BaseBuildRequest` / `BuildRequestV2`.  Optional fields model JSON keys
that may be absent; label values are `Option String` because JSON `null`
label values are representable in a loaded template. -/
structure Doc where
  name : Option String := none
  labels : Option (List (String × Option String)) := none
  triggers : Option (List Trigger) := none
  nodeSelector : Option (List (String × String)) := none
  env : List EnvVar := []
  secrets : Option (List SecretMount) := none
  fromKind : Option String := none
  fromName : Option String := none
  outputName : Option String := none
  resourcesLimits : Option (List (String × String)) := none
  completionDeadlineSeconds : Option Int := none
  gitUri : Option String := none
  gitRef : Option String := none
  deriving DecidableEq, Repr

/-- The atomic-reactor configuration mapping (`reactor_config_data`): the
keys the code reads.  `Option` fields model key presence. -/
structure RData where
  required_secrets : List String := []
  worker_token_secrets : List String := []
  source_registry : Option String := none
  registries_organization : Option String := none
  flatpak_base_image : Option String := none
  deriving DecidableEq, Repr

/-- The externally validated user-parameter bag (`BuildUserParams`), reduced
to the `.value` accessors the rendering code reads.  `reactor_config_override`
is `some` exactly when the Python value is a truthy (non-empty) dict. -/
structure UserParams where
  name : Option String := none
  platform : Option String := none
  image_tag : Option String := none
  build_imagestream : Option String := none
  build_image : Option String := none
  base_image : Option String := none
  reactor_config_override : Option RData := none
  reactor_config_map : Option String := none
  git_uri : Option String := none
  git_ref : Option String := none
  git_branch : Option String := none
  koji_task_id : Option String := none
  release : Option String := none
  build_type : Option String := none
  flatpak : Bool := false
  trigger_imagestreamtag : Option String := none
  worker_deadline : Int := 0
  orchestrator_deadline : Int := 0
  deriving DecidableEq, Repr

/-- The repository-info collaborator (`self._repo_info`), reduced to the
three facts `adjust_for_repo_info` reads. -/
structure RepoInfo where
  autorebuild_enabled : Bool
  add_timestamp_to_release : Bool := false
  dockerfile_has_release_label : Bool := false
  deriving DecidableEq, Repr

/-- The mutable attributes of a `BuildRequestV2` instance that the rendering
pipeline reads or writes, with the in-memory template document inlined.
`osbs_api` models presence of the API handle; `user_params_ok` models the
outcome of the external `user_params.validate()` collaborator. -/
structure St where
  template : Doc := {}
  scratch : Bool := false
  is_auto : Bool := false
  isolated : Bool := false
  base_image : Option String := none
  platform_node_selector : List (String × String) := []
  scratch_build_node_selector : List (String × String) := []
  explicit_build_node_selector : List (String × String) := []
  auto_build_node_selector : List (String × String) := []
  isolated_build_node_selector : List (String × String) := []
  user_params : UserParams := {}
  triggered_after_koji_task : Option String := none
  repo_info : Option RepoInfo := none
  osbs_api : Bool := false
  user_params_ok : Bool := true
  source_registry : Option String := none
  organization : Option String := none
  resource_limits : Option (List (String × String)) := none
  deriving DecidableEq, Repr

/-- External collaborator functions, abstracted: the OpenShift label
sanitizer, YAML serialization of a reactor config, JSON serialization of the
user parameters, the git-URI humanish-part helper, the isolated-release
regular expression (its match function and its pattern text), and the
config-map lookup of the API handle (`none` models an empty data dict). -/
structure Ext where
  sanitize : String → String
  yamlDump : RData → String
  toJson : UserParams → String
  repoHumanish : Option String → String
  isoMatch : String → Bool
  isoPattern : String
  getConfigMap : String → Option RData

/-- Errors raised by the pipeline: `OsbsValidationException`/`OsbsException`
(validation), `RuntimeError`, and uncaught Python `ValueError`-style errors
(e.g. tuple-unpacking failure in `rsplit`). -/
inductive Err where
  | validation (msg : String)
  | runtimeError (msg : String)
  | valueError (msg : String)
  deriving DecidableEq, Repr

/-- Modelled from the spec: the constants `BUILD_TYPE_WORKER` and
`BUILD_TYPE_ORCHESTRATOR` from `osbs.constants` are not under `src/`; the
spec speaks of `worker`/`orchestrator` build roles. -/
def BUILD_TYPE_WORKER : String := "worker"

/-- Modelled from the spec: see `BUILD_TYPE_WORKER`. -/
def BUILD_TYPE_ORCHESTRATOR : String := "orchestrator"

/-- Modelled from the spec: the constant `SECRETS_PATH` from
`osbs.constants` is not under `src/`; the spec names it only symbolically
("a derived filesystem path `SECRETS_PATH/<name>`"). -/
def SECRETS_PATH : String := "SECRETS_PATH"

/-- Python `os.path.join a b` for the cases that can occur here: if `b` is
absolute it replaces `a`; otherwise a single separator is inserted. -/
def osPathJoin (a b : String) : String :=
  if strStartsWith b "/" then b
  else if strEndsWith a "/" || a = "" then a ++ b
  else a ++ "/" ++ b

/-- `BuildRequestV2.validate_build_variation`: counts how many of the three
variation flags are set and rejects more than one. -/
def countTrue (scratch is_auto isolated : Bool) : Nat :=
  (if scratch then 1 else 0) + (if is_auto then 1 else 0) +
    (if isolated then 1 else 0)

/-- `BuildRequestV2.validate_build_variation`. -/
def validate_build_variation (scratch is_auto isolated : Bool) :
    Except Err Unit :=
  if 1 < countTrue scratch is_auto isolated then
    .error (.validation
      "Build variations are mutually exclusive. Must set either scratch, is_auto, isolated, or none. ")
  else
    .ok ()

/-- The keyword arguments of `BuildRequestV2.set_params` that the modelled
pipeline reads; the remaining kwargs are forwarded verbatim to the external
`user_params.set_params`, modelled by the `user_params` field. -/
structure Kwargs where
  scratch : Bool := false
  is_auto : Bool := false
  isolated : Bool := false
  osbs_api : Bool := false
  base_image : Option String := none
  platform_node_selector : List (String × String) := []
  scratch_build_node_selector : List (String × String) := []
  explicit_build_node_selector : List (String × String) := []
  auto_build_node_selector : List (String × String) := []
  isolated_build_node_selector : List (String × String) := []
  triggered_after_koji_task : Option String := none
  user_params : UserParams := {}
  deriving Repr

/-- `BuildRequestV2.set_params` (including the `BaseBuildRequest.set_params`
super call): assigns the variation flags, validates their mutual exclusion,
and only then stores the remaining parameters.  The template document is
never touched. -/
def set_params (st : St) (kw : Kwargs) : Except Err St :=
  let st := { st with
    scratch := kw.scratch
    osbs_api := kw.osbs_api
    is_auto := kw.is_auto
    triggered_after_koji_task := kw.triggered_after_koji_task
    isolated := kw.isolated }
  match validate_build_variation kw.scratch kw.is_auto kw.isolated with
  | .error e => .error e
  | .ok _ => .ok { st with
      base_image := kw.base_image
      platform_node_selector := kw.platform_node_selector
      scratch_build_node_selector := kw.scratch_build_node_selector
      explicit_build_node_selector := kw.explicit_build_node_selector
      auto_build_node_selector := kw.auto_build_node_selector
      isolated_build_node_selector := kw.isolated_build_node_selector
      user_params := kw.user_params }

/-- `BaseBuildRequest.set_label`: creates `metadata.labels` when absent
(`setdefault`), replaces a falsy value (`None` or `''`) with `''`,
sanitizes the value through the external sanitizer, and stores it. -/
def set_label (ext : Ext) (d : Doc) (nm : String) (value : Option String) :
    Doc :=
  let v := if truthy value then value.getD "" else ""
  { d with labels := some (alSet (d.labels.getD []) nm (some (ext.sanitize v))) }

/-- Strip a trailing `-<platform>` suffix from the tag, as `render_name`
does when a truthy platform is set. -/
def stripPlatformSuffix (tag : String) (platform : Option String) : String :=
  if truthy platform then
    let p := platform.getD ""
    if strEndsWith tag ("-" ++ p) then strDropRight tag (p.data.length + 1)
    else tag
  else tag

/-- Python `name.rsplit('-', 2)` unpacked into three components: `none` when
the string has fewer than two `-` separators (Python raises `ValueError`
"not enough values to unpack" in that case). -/
def rsplit2 (s : String) : Option (String × String × String) :=
  match (strSplitOnChar '-' s).reverse with
  | ts :: salt :: rest@(_ :: _) =>
    some (strIntercalateChar '-' rest.reverse, salt, ts)
  | _ => none

/-- `BaseBuildRequest.render_name`: for scratch or isolated builds the name
is derived from the image tag (platform suffix stripped, then the last two
`-`-delimited segments reused as salt and timestamp); otherwise the
user-params name is used.  A tag with too few segments makes the Python
tuple unpacking raise `ValueError`; a missing image tag raises
`AttributeError`-style errors — both modelled as `Err.valueError`. -/
def render_name (st : St) (d : Doc) : Except Err Doc :=
  if st.scratch || st.isolated then
    match st.user_params.image_tag with
    | none => .error (.valueError "image_tag is None")
    | some tag =>
      let nm := stripPlatformSuffix tag st.user_params.platform
      match rsplit2 nm with
      | none => .error (.valueError "not enough values to unpack")
      | some (_, salt, ts) =>
        let prefixStr := if st.scratch then "scratch" else "isolated"
        .ok { d with name := some (prefixStr ++ "-" ++ salt ++ "-" ++ ts) }
  else
    .ok { d with name := st.user_params.name }

/-- `BaseBuildRequest.render_output_name`. -/
def render_output_name (st : St) (d : Doc) : Doc :=
  { d with outputName := st.user_params.image_tag }

/-- `BaseBuildRequest.render_custom_strategy`. -/
def render_custom_strategy (st : St) (d : Doc) : Doc :=
  if truthy st.user_params.build_imagestream then
    { d with fromKind := some "ImageStreamTag"
             fromName := st.user_params.build_imagestream }
  else
    { d with fromName := st.user_params.build_image }

/-- `BaseBuildRequest.render_resource_limits`. -/
def render_resource_limits (st : St) (d : Doc) : Doc :=
  match st.resource_limits with
  | none => d
  | some rl => { d with resourcesLimits := some (alUpdate (d.resourcesLimits.getD []) rl) }

/-- `BaseBuildRequest.adjust_for_scratch`: scratch builds drop `spec.triggers`
and get a `scratch=true` label. -/
def adjust_for_scratch (ext : Ext) (st : St) (d : Doc) : Doc :=
  if st.scratch then
    set_label ext { d with triggers := none } "scratch" (some "true")
  else d

/-- `BaseBuildRequest.set_reactor_config`: appends at most one
`REACTOR_CONFIG` environment entry — inline from the override when present,
else a `configMapKeyRef` to the config map when present, else nothing. -/
def set_reactor_config (ext : Ext) (st : St) (d : Doc) : Doc :=
  match st.user_params.reactor_config_override with
  | some o =>
    { d with env := d.env ++ [⟨"REACTOR_CONFIG", .plain (ext.yamlDump o)⟩] }
  | none =>
    if truthy st.user_params.reactor_config_map then
      { d with env := d.env ++
          [⟨"REACTOR_CONFIG",
            .configMapKeyRef (st.user_params.reactor_config_map.getD "") "config.yaml"⟩] }
    else d

/-- `BaseBuildRequest.render_user_params`: appends the serialized user
parameters as a `USER_PARAMS` environment entry. -/
def render_user_params (ext : Ext) (st : St) (d : Doc) : Doc :=
  { d with env := d.env ++ [⟨"USER_PARAMS", .plain (ext.toJson st.user_params)⟩] }

/-- Remove the first environment entry named `ATOMIC_REACTOR_PLUGINS`
(the loop breaks after the first deletion). -/
def removeFirstEnv (nm : String) : List EnvVar → List EnvVar
  | [] => []
  | e :: rest => if e.name = nm then rest else e :: removeFirstEnv nm rest

/-- `BaseBuildRequest.delete_atomic_reactor_placeholder`. -/
def delete_atomic_reactor_placeholder (d : Doc) : Doc :=
  { d with env := removeFirstEnv "ATOMIC_REACTOR_PLUGINS" d.env }

/-- `BaseBuildRequest.get_reactor_config_data`: the override when truthy,
else the config-map contents fetched through the API handle, else the empty
dict (`none`). -/
def get_reactor_config_data (ext : Ext) (st : St) : Option RData :=
  match st.user_params.reactor_config_override with
  | some o => some o
  | none =>
    if truthy st.user_params.reactor_config_map then
      ext.getConfigMap (st.user_params.reactor_config_map.getD "")
    else none

/-- The mount entry built for a newly required secret:
`{secretSource: {name}, mountPath: os.path.join(SECRETS_PATH, name)}`. -/
def mkMount (s : String) : SecretMount :=
  { name := s, mountPath := osPathJoin SECRETS_PATH s }

/-- The body of the `_set_required_secrets` loop: appends one mount entry
for each required secret whose name is not among the already-mounted ones.
Python iterates over the set difference `set(required_secrets) - existing`;
the set semantics is modelled by deduplicating and filtering the list. -/
def addMissingSecrets (req : List String) (secrets : List SecretMount) :
    List SecretMount :=
  secrets ++
    (req.dedup.filter
      (fun s => !((secrets.map SecretMount.name).contains s))).map mkMount

/-- `BaseBuildRequest._set_required_secrets`: a falsy (empty) list is a
no-op; otherwise the missing secrets are appended (`setdefault` creates the
`secrets` list when absent). -/
def set_required_secrets_impl (req : List String) (d : Doc) : Doc :=
  if req = [] then d
  else { d with secrets := some (addMissingSecrets req (d.secrets.getD [])) }

/-- `BuildRequestV2.set_required_secrets`: orchestrator builds extend the
required secrets with the worker token secrets. -/
def set_required_secrets_v2 (st : St) (rd : RData) (d : Doc) : Doc :=
  let req := rd.required_secrets ++
    (if st.user_params.build_type = some BUILD_TYPE_ORCHESTRATOR then
      rd.worker_token_secrets else [])
  set_required_secrets_impl req d

/-- `BaseBuildRequest.set_source_registry`, `set_registry_organization` and
`BuildRequestV2.set_required_secrets` applied to a non-empty reactor-config
dict (the `super()` part of `set_data_from_reactor_config`). -/
def applyReactorData (st : St) (rd : RData) : St :=
  let st := match rd.source_registry with
    | some v => { st with source_registry := some v }
    | none => st
  let st := match rd.registries_organization with
    | some v => { st with organization := some v }
    | none => st
  { st with template := set_required_secrets_v2 st rd st.template }

/-- `BuildRequestV2.set_data_from_reactor_config`: the base-class part is a
no-op on an empty dict; an empty dict with `flatpak` set, or a flatpak build
without a `flatpak.base_image` key, raises; a flatpak base image replaces
`self.base_image` and `user_params.base_image`. -/
def set_data_from_reactor_config (st : St) (data : Option RData) :
    Except Err St :=
  match data with
  | none =>
    if st.user_params.flatpak then
      .error (.validation "flatpak_base_image must be provided")
    else .ok st
  | some rd =>
    let st := applyReactorData st rd
    if st.user_params.flatpak then
      if truthy rd.flatpak_base_image then
        let fb := rd.flatpak_base_image
        .ok { st with base_image := fb
                      user_params := { st.user_params with base_image := fb } }
      else .error (.validation "flatpak_base_image must be provided")
    else .ok st

/-- The pure middle of `BaseBuildRequest.render`: steps between
`render_name` and the reactor-config data fetch, in source order. -/
def renderBasePure (ext : Ext) (st : St) (d : Doc) : Doc :=
  delete_atomic_reactor_placeholder
    (render_user_params ext st
      (set_reactor_config ext st
        (adjust_for_scratch ext st
          (render_resource_limits st
            (render_custom_strategy st
              (render_output_name st d))))))

/-- `BaseBuildRequest.render` as run by `BuildRequestV2` (with the V2
overrides of `set_required_secrets` / `set_data_from_reactor_config`):
the API-handle check, the optional external parameter validation, the fixed
renderer sequence, and the reactor-config data application. -/
def renderBase (ext : Ext) (st : St) (validate : Bool) : Except Err St :=
  if !st.osbs_api then .error (.validation "OSBS API is not specified")
  else if validate && !st.user_params_ok then
    -- the external collaborator user_params.validate() raised
    .error (.validation "user params validation failed")
  else
    match render_name st st.template with
    | .error e => .error e
    | .ok d =>
      let d := renderBasePure ext st d
      set_data_from_reactor_config { st with template := d }
        (get_reactor_config_data ext st)

/-- `BuildRequestV2.has_ist_trigger`. -/
def has_ist_trigger (d : Doc) : Bool :=
  (d.triggers.getD []).any
    (fun t => t.typ == "ImageChange" && t.fromKind == "ImageStreamTag")

/-- Write `spec.triggers[0].imageChange.from.name` (guarded by
`has_ist_trigger`, so the trigger list is non-empty when this runs). -/
def setTrigger0Name (d : Doc) (nm : Option String) : Doc :=
  match d.triggers with
  | some (t :: rest) => { d with triggers := some ({ t with fromName := nm } :: rest) }
  | _ => d

/-- The pure prefix of `BuildRequestV2.render` after the base render:
git source fields, the image-stream-tag trigger update, and the git/koji
labels, in source order. -/
def tailPre (ext : Ext) (st : St) (d : Doc) : Doc :=
  let d := { d with gitUri := st.user_params.git_uri
                    gitRef := st.user_params.git_ref }
  let d := if has_ist_trigger d then
      setTrigger0Name d st.user_params.trigger_imagestreamtag
    else d
  let d := set_label ext d "git-repo-name"
    (some (ext.repoHumanish st.user_params.git_uri))
  let d := set_label ext d "git-branch" st.user_params.git_branch
  let d := set_label ext d "git-full-repo" st.user_params.git_uri
  match st.user_params.koji_task_id with
  | none => d
  | some k =>
    let d := set_label ext d "koji-task-id" (some k)
    if st.triggered_after_koji_task = none then
      set_label ext d "original-koji-task-id" (some k)
    else d

/-- `BuildRequestV2.is_custom_base_image`: Python
`re.match('^koji/image-build(:.*)?$', base or '')`.  `.*` does not cross a
newline and `$` also matches just before one trailing newline. -/
def is_custom_base_image (base : Option String) : Bool :=
  let b := base.getD ""
  let r := if strEndsWith b "\n" then strDropRight b 1 else b
  r == "koji/image-build" ||
    (strStartsWith r "koji/image-build:" && !(r.data.contains '\n'))

/-- `BuildRequestV2.is_from_scratch_image`. -/
def is_from_scratch_image (base : Option String) : Bool :=
  base == some "scratch"

/-- The trigger removal for custom-base-image / FROM-scratch builds in
`BuildRequestV2.render` (lines 499-505). -/
def customTriggerAdjust (st : St) (d : Doc) : Doc :=
  if !(d.triggers.getD []).isEmpty &&
      (is_custom_base_image st.base_image || is_from_scratch_image st.base_image) then
    { d with triggers := none }
  else d

/-- `BuildRequestV2.adjust_for_repo_info`. -/
def adjust_for_repo_info (st : St) (d : Doc) : Except Err Doc :=
  match st.repo_info with
  | none => .ok d
  | some ri =>
    if !ri.autorebuild_enabled then .ok { d with triggers := none }
    else if ri.add_timestamp_to_release then .ok d
    else if ri.dockerfile_has_release_label then
      .error (.runtimeError
        "when autorebuild is enabled in repo configuration, \"release\" label must not be set in Dockerfile")
    else .ok d

/-- `BuildRequestV2.adjust_for_isolated`: isolated builds drop triggers,
require a release matching `ISOLATED_RELEASE_FORMAT` (the pattern text
appears in the error message), and get `isolated`/`isolated-release`
labels. -/
def adjust_for_isolated (ext : Ext) (st : St) (d : Doc) : Except Err Doc :=
  if !st.isolated then .ok d
  else
    let d := { d with triggers := none }
    if !truthy st.user_params.release then
      .error (.validation "The release parameter is required for isolated builds.")
    else
      let r := st.user_params.release.getD ""
      if !ext.isoMatch r then
        .error (.validation
          ("For isolated builds, the release value must be in the format: " ++ ext.isoPattern))
      else
        .ok (set_label ext (set_label ext d "isolated" (some "true"))
              "isolated-release" (some r))

/-- The base node selector chosen by variation precedence in
`render_node_selectors`: auto, else scratch, else isolated, else explicit. -/
def chooseSelector (st : St) : List (String × String) :=
  if st.is_auto then st.auto_build_node_selector
  else if st.scratch then st.scratch_build_node_selector
  else if st.isolated then st.isolated_build_node_selector
  else st.explicit_build_node_selector

/-- `BuildRequestV2.render_node_selectors`: worker builds get the variation
selector with the platform selector merged on top; other build types are
untouched. -/
def render_node_selectors (st : St) (d : Doc) : Doc :=
  if st.user_params.build_type = some BUILD_TYPE_WORKER then
    let sel := chooseSelector st
    let sel := if !st.platform_node_selector.isEmpty then
        alUpdate sel st.platform_node_selector
      else sel
    { d with nodeSelector := some sel }
  else d

/-- `BuildRequestV2._set_deadline` together with
`BaseBuildRequest.set_deadline`: a positive deadline in hours is stored in
seconds, otherwise the field is left alone. -/
def set_deadline_v2 (st : St) (d : Doc) : Doc :=
  let deadline_hours :=
    if st.user_params.build_type = some BUILD_TYPE_WORKER then
      st.user_params.worker_deadline
    else st.user_params.orchestrator_deadline
  if 0 < deadline_hours then
    { d with completionDeadlineSeconds := some (deadline_hours * 3600) }
  else d

/-- The part of `BuildRequestV2.render` that follows the base-class render,
in source order (lines 472-517). -/
def renderTail (ext : Ext) (st : St) : Except Err St :=
  let d := customTriggerAdjust st (tailPre ext st st.template)
  match adjust_for_repo_info st d with
  | .error e => .error e
  | .ok d =>
    match adjust_for_isolated ext st d with
    | .error e => .error e
    | .ok d =>
      .ok { st with template := set_deadline_v2 st (render_node_selectors st d) }

/-- `BuildRequestV2.render`. -/
def renderV2 (ext : Ext) (st : St) (validate : Bool) : Except Err St :=
  match renderBase ext st validate with
  | .error e => .error e
  | .ok st1 => renderTail ext st1

/-- Project the state out of a successful render result (used to state
closed witnesses without binders). -/
def renderResultSt (r : Except Err St) (fallback : St) : St :=
  match r with
  | .ok s => s
  | .error _ => fallback

/-- Whether a render result is a success. -/
def isOkE (r : Except Err St) : Bool :=
  match r with
  | .ok _ => true
  | .error _ => false

/-- Project the document out of a successful per-step result (used to state
closed witnesses without binders). -/
def docResult (r : Except Err Doc) (fallback : Doc) : Doc :=
  match r with
  | .ok d => d
  | .error _ => fallback

/-! ## Template loading (`BaseBuildRequest.template`, C9)

The lazy template property is modelled on its own: the filesystem is a
function from paths to read results, JSON parsing is an abstract function,
and the cache is the Python attribute `self._template`, whose `None` value
is both the "not loaded yet" sentinel and the parse result of the JSON text
`null`. -/

/-- A Python value as stored in `self._template`: `null` doubles as the
"not loaded" sentinel (Python `None`). -/
inductive PyJson where
  | null
  | parsed (payload : String)
  deriving DecidableEq, Repr

/-- Result of opening and reading a file. -/
inductive ReadResult where
  | ioError (msg : String)
  | content (s : String)
  deriving DecidableEq, Repr

/-- Errors of the template property: `OsbsException` wrapping the I/O error
(the spec's `ConfigError`), and the uncaught `json` decode error propagating
to the caller (the spec's `FormatError`). -/
inductive TemplateErr where
  | osbsError (msg : String)
  | jsonError (msg : String)
  deriving DecidableEq, Repr

/-- One access to the `template` property: returns the document, the new
cache value, and whether the file was read during this access. -/
def templateAccess (fs : String → ReadResult)
    (parse : String → Except String PyJson) (path : String)
    (cache : PyJson) : Except TemplateErr (PyJson × PyJson × Bool) :=
  match cache with
  | .parsed s => .ok (.parsed s, .parsed s, false)
  | .null =>
    match fs path with
    | .ioError m =>
      .error (.osbsError ("Can\x27t open template \x27" ++ path ++ "\x27: " ++ m))
    | .content s =>
      match parse s with
      | .error m => .error (.jsonError m)
      | .ok j => .ok (j, j, true)

/-! ## Helper lemmas -/

theorem alGet_alSet_self {β : Type} (m : List (String × β)) (k : String) (v : β) :
    alGet (alSet m k v) k = some v := by
  induction m with
  | nil => simp [alSet, alGet]
  | cons p rest ih =>
    by_cases h : p.1 = k
    · simp [alSet, alGet, h]
    · simp only [alSet, alGet]
      rw [if_neg h, ]
      simp only [alGet]
      rw [if_neg h]
      exact ih

theorem alGet_alSet_other {β : Type} (m : List (String × β)) (k k' : String)
    (v : β) (h : k' ≠ k) : alGet (alSet m k' v) k = alGet m k := by
  induction m with
  | nil => simp [alSet, alGet, h]
  | cons p rest ih =>
    by_cases hp : p.1 = k'
    · have hpk : ¬ p.1 = k := by rw [hp]; exact h
      simp only [alSet, if_pos hp, alGet, if_neg h, if_neg hpk]
    · simp only [alSet, if_neg hp, alGet]
      by_cases hk : p.1 = k
      · rw [if_pos hk, if_pos hk]
      · rw [if_neg hk, if_neg hk]
        exact ih

theorem mem_alSet {β : Type} (m : List (String × β)) (k : String) (v : β)
    (p : String × β) (hp : p ∈ alSet m k v) : p = (k, v) ∨ p ∈ m := by
  induction m with
  | nil => simpa [alSet] using hp
  | cons q rest ih =>
    by_cases h : q.1 = k
    · simp only [alSet, if_pos h] at hp
      rcases List.mem_cons.mp hp with h1 | h1
      · exact Or.inl h1
      · exact Or.inr (List.mem_cons_of_mem _ h1)
    · simp only [alSet, if_neg h] at hp
      rcases List.mem_cons.mp hp with h1 | h1
      · exact Or.inr (h1 ▸ List.mem_cons_self _ _)
      · rcases ih h1 with h2 | h2
        · exact Or.inl h2
        · exact Or.inr (List.mem_cons_of_mem _ h2)

theorem alUpdate_nil {β : Type} (m : List (String × β)) : alUpdate m [] = m := rfl

/-! ## C1: mutual exclusion of the build variations -/

/-- C1: for every parameter set in which more than one of the flags
`scratch`, `is_auto`, `isolated` is true, `BuildRequestV2.set_params` raises
`OsbsValidationException`; the template document is never mutated by
`set_params` (in this embedding `set_params` leaves the `template` field of
the state untouched on every path, so no document mutation can precede the
error).  When at most one flag is true, `set_params` succeeds (the modelled
validation is the only source of errors in `set_params`). -/
theorem claim_C1_variation_mutual_exclusion (st : St) (kw : Kwargs) :
    (1 < countTrue kw.scratch kw.is_auto kw.isolated →
      set_params st kw = .error (.validation
        "Build variations are mutually exclusive. Must set either scratch, is_auto, isolated, or none. "))
    ∧ (countTrue kw.scratch kw.is_auto kw.isolated ≤ 1 →
      ∃ st', set_params st kw = .ok st' ∧ st'.template = st.template) := by
  constructor
  · intro h
    unfold set_params validate_build_variation
    rw [if_pos h]
  · intro h
    have hv : validate_build_variation kw.scratch kw.is_auto kw.isolated = .ok () := by
      unfold validate_build_variation
      rw [if_neg (by omega)]
    unfold set_params
    rw [hv]
    exact ⟨_, rfl, rfl⟩

/-- A state used as concrete input by witnesses. -/
def stEmpty : St := {}

/-- Kwargs with two variation flags set, violating mutual exclusion. -/
def kwBad : Kwargs := { scratch := true, is_auto := true }

/-- Witness for C1 at concrete inputs: two flags raise, no flags succeed
with the template untouched. -/
theorem claim_C1_witness :
    set_params stEmpty kwBad = .error (.validation
      "Build variations are mutually exclusive. Must set either scratch, is_auto, isolated, or none. ")
    ∧ (renderResultSt (set_params stEmpty {}) stEmpty).template = stEmpty.template := by
  constructor
  · exact (claim_C1_variation_mutual_exclusion stEmpty kwBad).1 (by decide)
  · obtain ⟨st', h1, h2⟩ :=
      (claim_C1_variation_mutual_exclusion stEmpty {}).2 (by decide)
    rw [h1]
    simpa [renderResultSt] using h2

/-! ## C3: name derivation for scratch and isolated builds -/

/-- C3: for every scratch or isolated build whose image tag (after platform
stripping) still has a head and two trailing `-`-delimited segments,
`render_name` produces `scratch-<salt>-<timestamp>` resp.
`isolated-<salt>-<timestamp>`, where salt and timestamp are the last two
`-`-delimited segments of the stripped tag. -/
theorem claim_C3_render_name (st : St) (d : Doc) (tag pre salt ts : String)
    (htag : st.user_params.image_tag = some tag)
    (hsplit : rsplit2 (stripPlatformSuffix tag st.user_params.platform)
      = some (pre, salt, ts)) :
    (st.scratch = true →
      render_name st d = .ok { d with name := some ("scratch-" ++ salt ++ "-" ++ ts) })
    ∧ (st.scratch = false → st.isolated = true →
      render_name st d = .ok { d with name := some ("isolated-" ++ salt ++ "-" ++ ts) }) := by
  have hpre : ("scratch" ++ "-" ++ salt ++ "-" ++ ts) = "scratch-" ++ salt ++ "-" ++ ts := by
    simp [String.append_assoc]
  have hpre2 : ("isolated" ++ "-" ++ salt ++ "-" ++ ts) = "isolated-" ++ salt ++ "-" ++ ts := by
    simp [String.append_assoc]
  constructor
  · intro hs
    have h1 : render_name st d
        = .ok { d with name := some ("scratch" ++ "-" ++ salt ++ "-" ++ ts) } := by
      simp [render_name, hs, htag, hsplit]
    rw [h1, hpre]
  · intro hs hi
    have h1 : render_name st d
        = .ok { d with name := some ("isolated" ++ "-" ++ salt ++ "-" ++ ts) } := by
      simp [render_name, hs, hi, htag, hsplit]
    rw [h1, hpre2]

/-- Scratch-build state for the C3 witness, with the spec's example tag. -/
def stC3scratch : St :=
  { scratch := true
    user_params := { image_tag := some "myimage-abc123-20200101000000" } }

/-- Isolated-build state for the C3 witness. -/
def stC3isolated : St :=
  { isolated := true
    user_params := { image_tag := some "myimage-abc123-20200101000000" } }

/-- Witness for C3 at the spec's example: tag
`myimage-abc123-20200101000000` yields `scratch-abc123-20200101000000`
under scratch and `isolated-abc123-20200101000000` under isolated. -/
theorem claim_C3_witness :
    render_name stC3scratch {} = .ok { name := some "scratch-abc123-20200101000000" }
    ∧ render_name stC3isolated {} = .ok { name := some "isolated-abc123-20200101000000" } := by
  constructor
  · have h := (claim_C3_render_name stC3scratch {} "myimage-abc123-20200101000000"
      "myimage" "abc123" "20200101000000" rfl (by decide)).1 rfl
    rw [h]
    decide
  · have h := (claim_C3_render_name stC3isolated {} "myimage-abc123-20200101000000"
      "myimage" "abc123" "20200101000000" rfl (by decide)).2 rfl rfl
    rw [h]
    decide

/-! ## C4: node selector resolution -/

/-- C4: worker builds get the variation-precedence selector (auto, else
scratch, else isolated, else explicit) with the platform selector merged on
top key-by-key (platform keys win, which is what `alUpdate` does);
non-worker (orchestrator) builds are left without any node-selector
assignment. -/
theorem claim_C4_node_selectors (st : St) (d : Doc) :
    (st.user_params.build_type = some BUILD_TYPE_WORKER →
      render_node_selectors st d =
        { d with nodeSelector := some (alUpdate (chooseSelector st) st.platform_node_selector) })
    ∧ (st.user_params.build_type ≠ some BUILD_TYPE_WORKER →
      render_node_selectors st d = d)
    ∧ (st.is_auto = true → chooseSelector st = st.auto_build_node_selector)
    ∧ (st.is_auto = false → st.scratch = true →
      chooseSelector st = st.scratch_build_node_selector)
    ∧ (st.is_auto = false → st.scratch = false → st.isolated = true →
      chooseSelector st = st.isolated_build_node_selector)
    ∧ (st.is_auto = false → st.scratch = false → st.isolated = false →
      chooseSelector st = st.explicit_build_node_selector) := by
  refine ⟨?_, ?_, ?_, ?_, ?_, ?_⟩
  · intro h
    unfold render_node_selectors
    rw [if_pos h]
    by_cases hp : st.platform_node_selector.isEmpty
    · have hnil : st.platform_node_selector = [] := List.isEmpty_iff.mp hp
      simp [hp, hnil, alUpdate_nil]
    · simp [hp]
  · intro h
    unfold render_node_selectors
    rw [if_neg h]
  · intro h; unfold chooseSelector; rw [h]; simp
  · intro h1 h2; unfold chooseSelector; rw [h1, h2]; simp
  · intro h1 h2 h3; unfold chooseSelector; rw [h1, h2, h3]; simp
  · intro h1 h2 h3; unfold chooseSelector; rw [h1, h2, h3]; simp

/-- Worker state for the C4 witness, realizing the spec's example:
auto build with auto selector `pool=auto` and platform selector `zone=a`. -/
def stC4 : St :=
  { is_auto := true
    auto_build_node_selector := [("pool", "auto")]
    platform_node_selector := [("zone", "a")]
    user_params := { build_type := some "worker" } }

/-- Non-worker state for the C4 witness. -/
def stC4orch : St :=
  { is_auto := true
    auto_build_node_selector := [("pool", "auto")]
    user_params := { build_type := some "orchestrator" } }

/-- Witness for C4 at the spec's example: the rendered selector equals
`pool=auto, zone=a`, and an orchestrator build is untouched. -/
theorem claim_C4_witness :
    render_node_selectors stC4 {} = { nodeSelector := some [("pool", "auto"), ("zone", "a")] }
    ∧ render_node_selectors stC4orch {} = {} := by
  constructor
  · have h := (claim_C4_node_selectors stC4 {}).1 rfl
    rw [h]
    decide
  · exact (claim_C4_node_selectors stC4orch {}).2.1 (by decide)

/-! ## C5: reactor-config environment injection -/

/-- C5: `set_reactor_config` appends at most one `REACTOR_CONFIG` entry:
inline from the override when it is set (even if the config map is also
set), a `configMapKeyRef` when only the config map is set, and nothing when
neither is set. -/
theorem claim_C5_reactor_config (ext : Ext) (st : St) (d : Doc) :
    ((set_reactor_config ext st d).env.length ≤ d.env.length + 1)
    ∧ (∀ o, st.user_params.reactor_config_override = some o →
      set_reactor_config ext st d =
        { d with env := d.env ++ [⟨"REACTOR_CONFIG", .plain (ext.yamlDump o)⟩] })
    ∧ (∀ m, st.user_params.reactor_config_override = none →
      st.user_params.reactor_config_map = some m → m ≠ "" →
      set_reactor_config ext st d =
        { d with env := d.env ++ [⟨"REACTOR_CONFIG", .configMapKeyRef m "config.yaml"⟩] })
    ∧ (st.user_params.reactor_config_override = none →
      truthy st.user_params.reactor_config_map = false →
      set_reactor_config ext st d = d) := by
  refine ⟨?_, ?_, ?_, ?_⟩
  · unfold set_reactor_config
    cases st.user_params.reactor_config_override with
    | some o => simp
    | none =>
      by_cases hm : truthy st.user_params.reactor_config_map
      · simp [hm]
      · simp [hm]
  · intro o ho
    unfold set_reactor_config
    rw [ho]
  · intro m ho hm hne
    unfold set_reactor_config
    rw [ho, hm]
    have : truthy (some m) = true := by
      simp [truthy, hne]
    rw [this]
    simp
  · intro ho hm
    unfold set_reactor_config
    rw [ho, hm]
    simp

/-- Override dict for the C5 witness. -/
def rdC5 : RData := { required_secrets := ["sec"] }

/-- State with both an override and a config map set (override must win). -/
def stC5both : St :=
  { user_params := { reactor_config_override := some rdC5
                     reactor_config_map := some "cmap" } }

/-- State with only a config map set. -/
def stC5map : St := { user_params := { reactor_config_map := some "cmap" } }

/-- Concrete external functions for witnesses (identity-style stand-ins for
the abstract collaborators). -/
def extId : Ext :=
  { sanitize := fun s => s
    yamlDump := fun _ => "serialized-reactor-config"
    toJson := fun _ => "serialized-user-params"
    repoHumanish := fun u => u.getD ""
    isoMatch := fun r => r == "fc31-1"
    isoPattern := "isolated-release-pattern"
    getConfigMap := fun _ => none }

/-- Witness for C5: with both sources set the inline override wins; with
only the map set a `configMapKeyRef` entry is appended; with neither set
nothing happens. -/
theorem claim_C5_witness :
    set_reactor_config extId stC5both {} =
      { env := [⟨"REACTOR_CONFIG", .plain "serialized-reactor-config"⟩] }
    ∧ set_reactor_config extId stC5map {} =
      { env := [⟨"REACTOR_CONFIG", .configMapKeyRef "cmap" "config.yaml"⟩] }
    ∧ set_reactor_config extId stEmpty {} = {} := by
  refine ⟨?_, ?_, ?_⟩
  · have h := (claim_C5_reactor_config extId stC5both {}).2.1 rdC5 rfl
    rw [h]
    decide
  · have h := (claim_C5_reactor_config extId stC5map {}).2.2.1 "cmap" rfl rfl
      (by decide)
    rw [h]
    decide
  · exact (claim_C5_reactor_config extId stEmpty {}).2.2.2 rfl (by decide)

/-! ## C6: secret injection -/

theorem map_name_map_mkMount (l : List String) :
    (l.map mkMount).map SecretMount.name = l := by
  induction l with
  | nil => rfl
  | cons a t ih => simp [mkMount, ih]

theorem filter_map_mkMount_of_not_mem (l : List String) (n : String)
    (h : ¬ n ∈ l) :
    (l.map mkMount).filter (fun m => m.name == n) = [] := by
  induction l with
  | nil => rfl
  | cons a t ih =>
    have ha : ¬ a = n := fun hc => h (hc ▸ List.mem_cons_self a t)
    have ht : ¬ n ∈ t := fun hc => h (List.mem_cons_of_mem a hc)
    simp only [List.map_cons, List.filter_cons]
    have hpred : ((mkMount a).name == n) = false := by
      simp [mkMount, ha]
    rw [hpred]
    exact ih ht

theorem filter_map_mkMount_of_nodup (l : List String) (hl : l.Nodup)
    (n : String) (h : n ∈ l) :
    (l.map mkMount).filter (fun m => m.name == n) = [mkMount n] := by
  induction l with
  | nil => cases h
  | cons a t ih =>
    rcases List.mem_cons.mp h with rfl | ht
    · have hnt : ¬ n ∈ t := (List.nodup_cons.mp hl).1
      simp only [List.map_cons, List.filter_cons]
      have hpred : ((mkMount n).name == n) = true := by simp [mkMount]
      rw [hpred]
      rw [filter_map_mkMount_of_not_mem t n hnt]
      simp
    · have ha : ¬ a = n := fun hc => (List.nodup_cons.mp hl).1 (hc ▸ ht)
      simp only [List.map_cons, List.filter_cons]
      have hpred : ((mkMount a).name == n) = false := by simp [mkMount, ha]
      rw [hpred]
      exact ih (List.nodup_cons.mp hl).2 ht

theorem addMissingSecrets_idem (req : List String) (secrets : List SecretMount) :
    addMissingSecrets req (addMissingSecrets req secrets)
      = addMissingSecrets req secrets := by
  have hnil : (req.dedup.filter (fun s =>
      !(((addMissingSecrets req secrets).map SecretMount.name).contains s))) = [] := by
    apply List.filter_eq_nil_iff.mpr
    intro a ha hpred
    rw [Bool.not_eq_true'] at hpred
    have hmem : ((addMissingSecrets req secrets).map SecretMount.name).contains a
        = true := by
      apply List.elem_iff.mpr
      unfold addMissingSecrets
      rw [List.map_append, List.mem_append]
      by_cases hc : (secrets.map SecretMount.name).contains a
      · exact Or.inl (List.elem_iff.mp hc)
      · rw [map_name_map_mkMount]
        refine Or.inr (List.mem_filter.mpr ⟨ha, ?_⟩)
        have hc' : (secrets.map SecretMount.name).contains a = false :=
          Bool.eq_false_iff.mpr hc
        rw [hc']
        rfl
    rw [hmem] at hpred
    cases hpred
  show addMissingSecrets req secrets ++
      (req.dedup.filter (fun s =>
        !(((addMissingSecrets req secrets).map SecretMount.name).contains s))).map mkMount
    = addMissingSecrets req secrets
  rw [hnil]
  simp

/-- The number of mount entries named `n` in the document's secrets list. -/
def countSecret (n : String) (d : Doc) : Nat :=
  ((d.secrets.getD []).filter (fun m => m.name == n)).length

/-- C6 (amended): secret injection is idempotent as an operation, each
required name not already mounted is appended exactly once with mount path
`SECRETS_PATH/<name>`, and a name already mounted is never added again (so
the count of entries for an already-mounted name is unchanged). -/
theorem claim_C6_secret_injection (req : List String) (d : Doc) :
    set_required_secrets_impl req (set_required_secrets_impl req d)
      = set_required_secrets_impl req d
    ∧ (∀ n, n ∈ req → ¬ n ∈ (d.secrets.getD []).map SecretMount.name →
      ((set_required_secrets_impl req d).secrets.getD []).filter
          (fun m => m.name == n)
        = [{ name := n, mountPath := osPathJoin SECRETS_PATH n }])
    ∧ (∀ n, n ∈ (d.secrets.getD []).map SecretMount.name →
      countSecret n (set_required_secrets_impl req d) = countSecret n d) := by
  refine ⟨?_, ?_, ?_⟩
  · by_cases hreq : req = []
    · simp [set_required_secrets_impl, hreq]
    · unfold set_required_secrets_impl
      rw [if_neg hreq, if_neg hreq]
      simp only [Option.getD_some]
      rw [addMissingSecrets_idem]
  · intro n hn hnot
    have hreq : req ≠ [] := by
      intro h
      rw [h] at hn
      cases hn
    unfold set_required_secrets_impl
    rw [if_neg hreq]
    simp only [Option.getD_some]
    unfold addMissingSecrets
    rw [List.filter_append]
    have h1 : (d.secrets.getD []).filter (fun m => m.name == n) = [] := by
      apply List.filter_eq_nil_iff.mpr
      intro m hm hpred
      rw [beq_iff_eq] at hpred
      exact hnot (hpred ▸ List.mem_map_of_mem SecretMount.name hm)
    have h2 : ((req.dedup.filter (fun s =>
        !(((d.secrets.getD []).map SecretMount.name).contains s))).map mkMount).filter
          (fun m => m.name == n) = [mkMount n] := by
      apply filter_map_mkMount_of_nodup
      · exact List.Nodup.filter _ (List.nodup_dedup req)
      · refine List.mem_filter.mpr ⟨List.mem_dedup.mpr hn, ?_⟩
        have : ((d.secrets.getD []).map SecretMount.name).contains n = false := by
          rw [Bool.eq_false_iff]
          intro hc
          exact hnot (List.elem_iff.mp hc)
        rw [this]
        rfl
    rw [h1, h2, List.nil_append]
    rfl
  · intro n hn
    by_cases hreq : req = []
    · rw [hreq]
      simp [set_required_secrets_impl]
    · unfold countSecret set_required_secrets_impl
      rw [if_neg hreq]
      simp only [Option.getD_some]
      unfold addMissingSecrets
      rw [List.filter_append, List.length_append]
      have h2 : ((req.dedup.filter (fun s =>
          !(((d.secrets.getD []).map SecretMount.name).contains s))).map mkMount).filter
            (fun m => m.name == n) = [] := by
        apply filter_map_mkMount_of_not_mem
        intro hmem
        have hpred := (List.mem_filter.mp hmem).2
        rw [Bool.not_eq_true'] at hpred
        rw [Bool.eq_false_iff] at hpred
        exact hpred (List.elem_iff.mpr hn)
      rw [h2]
      rfl

/-- A starting document whose secrets list already mounts the same name
twice (with a mount path unrelated to `SECRETS_PATH`). -/
def docDupSecrets : Doc := { secrets := some [⟨"s", "p"⟩, ⟨"s", "p"⟩] }

/-- C6 counterexample: on a starting list that already mounts `s` twice,
injecting `{s}` twice leaves two mount entries for `s`, not exactly one
(and neither has mount path `SECRETS_PATH/s`) — the claim's "exactly one
mount entry per name" fails for such starting lists. -/
theorem claim_C6_counterexample :
    countSecret "s" (set_required_secrets_impl ["s"]
      (set_required_secrets_impl ["s"] docDupSecrets)) = 2
    ∧ countSecret "s" (set_required_secrets_impl ["s"]
      (set_required_secrets_impl ["s"] docDupSecrets)) ≠ 1 := by
  decide

/-- Witness for C6 at concrete inputs: double injection of `a` into an
empty document equals single injection, the injected entry is exactly one
with the derived path, and an already-mounted name keeps its entry count. -/
theorem claim_C6_witness :
    set_required_secrets_impl ["a"] (set_required_secrets_impl ["a"] {})
      = set_required_secrets_impl ["a"] {}
    ∧ ((set_required_secrets_impl ["a"] ({} : Doc)).secrets.getD []).filter
        (fun m => m.name == "a")
      = [{ name := "a", mountPath := osPathJoin SECRETS_PATH "a" }]
    ∧ countSecret "s" (set_required_secrets_impl ["a"] docDupSecrets)
      = countSecret "s" docDupSecrets :=
  ⟨(claim_C6_secret_injection ["a"] {}).1,
   (claim_C6_secret_injection ["a"] {}).2.1 "a" (by decide) (by decide),
   (claim_C6_secret_injection ["a"] docDupSecrets).2.2 "s" (by decide)⟩

/-! ## C7: isolated-release validation and labels -/

/-- C7: for every isolated build, `adjust_for_isolated` raises
`OsbsValidationException` when the release is missing or empty, raises with
the expected pattern in the message when the release does not match the
isolated-release format, and otherwise sets the labels `isolated=true` and
`isolated-release=<release>` (label values pass through the external
OpenShift sanitizer) with the triggers removed. -/
theorem claim_C7_isolated_release (ext : Ext) (st : St) (d : Doc)
    (hiso : st.isolated = true) :
    (truthy st.user_params.release = false →
      adjust_for_isolated ext st d = .error (.validation
        "The release parameter is required for isolated builds."))
    ∧ (∀ r, st.user_params.release = some r → r ≠ "" → ext.isoMatch r = false →
      adjust_for_isolated ext st d = .error (.validation
        ("For isolated builds, the release value must be in the format: "
          ++ ext.isoPattern)))
    ∧ (∀ r, st.user_params.release = some r → r ≠ "" → ext.isoMatch r = true →
      ∃ d', adjust_for_isolated ext st d = .ok d'
        ∧ alGet (d'.labels.getD []) "isolated" = some (some (ext.sanitize "true"))
        ∧ alGet (d'.labels.getD []) "isolated-release" = some (some (ext.sanitize r))
        ∧ d'.triggers = none) := by
  refine ⟨?_, ?_, ?_⟩
  · intro hr
    simp [adjust_for_isolated, hiso, hr]
  · intro r hr hne hm
    have htr : truthy (some r) = true := by simp [truthy, hne]
    simp [adjust_for_isolated, hiso, hr, htr, hm]
  · intro r hr hne hm
    have htr : truthy (some r) = true := by simp [truthy, hne]
    refine ⟨set_label ext (set_label ext { d with triggers := none }
        "isolated" (some "true")) "isolated-release" (some r), ?_, ?_, ?_, ?_⟩
    · simp [adjust_for_isolated, hiso, hr, htr, hm]
    · unfold set_label
      simp only [Option.getD_some]
      rw [alGet_alSet_other _ _ _ _ (by decide)]
      have htrue : truthy (some "true") = true := by decide
      rw [htrue]
      simp only [Option.getD_some]
      exact alGet_alSet_self _ _ _
    · unfold set_label
      simp only [Option.getD_some]
      rw [htr]
      simp only [Option.getD_some]
      exact alGet_alSet_self _ _ _
    · rfl

/-- Isolated state with a release matching the witness pattern. -/
def stC7ok : St :=
  { isolated := true, user_params := { release := some "fc31-1" } }

/-- Isolated state with no release. -/
def stC7none : St := { isolated := true }

/-- Isolated state with a non-matching release (the spec's example
`"1.0"`). -/
def stC7bad : St :=
  { isolated := true, user_params := { release := some "1.0" } }

/-- Witness for C7 at concrete inputs: missing release raises, non-matching
release raises with the pattern in the message, matching release labels the
document. -/
theorem claim_C7_witness :
    adjust_for_isolated extId stC7none {} = .error (.validation
      "The release parameter is required for isolated builds.")
    ∧ adjust_for_isolated extId stC7bad {} = .error (.validation
      ("For isolated builds, the release value must be in the format: "
        ++ extId.isoPattern))
    ∧ alGet ((docResult (adjust_for_isolated extId stC7ok {}) {}).labels.getD [])
        "isolated-release" = some (some "fc31-1") := by
  refine ⟨?_, ?_, ?_⟩
  · exact (claim_C7_isolated_release extId stC7none {} rfl).1 (by decide)
  · exact (claim_C7_isolated_release extId stC7bad {} rfl).2.1 "1.0" rfl
      (by decide) (by decide)
  · obtain ⟨d', hd, h1, h2, h3⟩ :=
      (claim_C7_isolated_release extId stC7ok {} rfl).2.2 "fc31-1" rfl
        (by decide) (by decide)
    rw [hd]
    simpa [docResult, extId] using h2

/-! ## C9: template loading -/

/-- A filesystem whose template file holds the JSON text `null`. -/
def fsNull : String → ReadResult := fun _ => .content "null"

/-- A JSON parser stub: `null` parses to the null document, everything else
is a decode error. -/
def parseNull : String → Except String PyJson := fun s =>
  if s = "null" then .ok .null else .error "Expecting value"

/-- C9 counterexample: when the template file parses to JSON `null`, the
access completes a full read (flag `true`) yet the returned cache is again
the `None` sentinel — so the next access (the same call) reads the file
again: the file is not "read at most once". -/
theorem claim_C9_counterexample :
    templateAccess fsNull parseNull "outer.json" PyJson.null
      = .ok (PyJson.null, PyJson.null, true) := by
  decide

/-- C9 (amended): template loading is cached under a `None` sentinel — once
a non-null document is cached, every access returns that same document
without reading the file; a first load maps an I/O failure to
`OsbsException` (the spec's `ConfigError`) and lets the JSON decode error
propagate (the spec's `FormatError`); a successful parse returns and caches
the parsed document (which, when null, leaves the sentinel in place). -/
theorem claim_C9_template_loading (fs : String → ReadResult)
    (parse : String → Except String PyJson) (path : String) :
    (∀ s, templateAccess fs parse path (.parsed s)
      = .ok (.parsed s, .parsed s, false))
    ∧ (∀ m, fs path = .ioError m →
      templateAccess fs parse path .null = .error (.osbsError
        ("Can\x27t open template \x27" ++ path ++ "\x27: " ++ m)))
    ∧ (∀ s m, fs path = .content s → parse s = .error m →
      templateAccess fs parse path .null = .error (.jsonError m))
    ∧ (∀ s j, fs path = .content s → parse s = .ok j →
      templateAccess fs parse path .null = .ok (j, j, true)) := by
  refine ⟨?_, ?_, ?_, ?_⟩
  · intro s
    rfl
  · intro m hm
    simp [templateAccess, hm]
  · intro s m hs hp
    simp [templateAccess, hs, hp]
  · intro s j hs hp
    simp [templateAccess, hs, hp]

/-- A filesystem whose template file is unreadable. -/
def fsErr : String → ReadResult := fun _ => .ioError "Permission denied"

/-- A filesystem whose template file holds a well-formed document. -/
def fsDoc : String → ReadResult := fun _ => .content "doc"

/-- A parser stub mapping the text `doc` to a parsed document. -/
def parseDoc : String → Except String PyJson := fun s =>
  if s = "doc" then .ok (.parsed "doc") else .error "Expecting value"

/-- Witness for C9 at concrete inputs: cached access without a read, the
`OsbsException` on an unreadable file, the propagated decode error on
unparseable content, and a fresh successful load. -/
theorem claim_C9_witness :
    templateAccess fsDoc parseDoc "outer.json" (.parsed "doc")
      = .ok (.parsed "doc", .parsed "doc", false)
    ∧ templateAccess fsErr parseDoc "outer.json" .null
      = .error (.osbsError
        ("Can\x27t open template \x27outer.json\x27: Permission denied"))
    ∧ templateAccess fsNull parseDoc "outer.json" .null
      = .error (.jsonError "Expecting value")
    ∧ templateAccess fsDoc parseDoc "outer.json" .null
      = .ok (.parsed "doc", .parsed "doc", true) := by
  refine ⟨?_, ?_, ?_, ?_⟩
  · exact (claim_C9_template_loading fsDoc parseDoc "outer.json").1 "doc"
  · have h := (claim_C9_template_loading fsErr parseDoc "outer.json").2.1
      "Permission denied" rfl
    rw [h]
    decide
  · exact (claim_C9_template_loading fsNull parseDoc "outer.json").2.2.1
      "null" "Expecting value" rfl (by decide)
  · exact (claim_C9_template_loading fsDoc parseDoc "outer.json").2.2.2
      "doc" (.parsed "doc") rfl (by decide)

/-! ## Frame lemmas for the render pipeline

Each renderer step touches a known set of document fields; these lemmas
record that the other fields (triggers, labels) pass through unchanged, so
that end-to-end claims about the full `renderV2` chain can be composed. -/

@[simp]
theorem set_label_triggers (ext : Ext) (d : Doc) (nm : String)
    (v : Option String) : (set_label ext d nm v).triggers = d.triggers := rfl

@[simp]
theorem render_output_name_frame (st : St) (d : Doc) :
    (render_output_name st d).triggers = d.triggers
    ∧ (render_output_name st d).labels = d.labels := ⟨rfl, rfl⟩

@[simp]
theorem render_custom_strategy_triggers (st : St) (d : Doc) :
    (render_custom_strategy st d).triggers = d.triggers := by
  unfold render_custom_strategy
  split <;> rfl

@[simp]
theorem render_custom_strategy_labels (st : St) (d : Doc) :
    (render_custom_strategy st d).labels = d.labels := by
  unfold render_custom_strategy
  split <;> rfl

@[simp]
theorem render_resource_limits_triggers (st : St) (d : Doc) :
    (render_resource_limits st d).triggers = d.triggers := by
  unfold render_resource_limits
  cases st.resource_limits <;> rfl

@[simp]
theorem render_resource_limits_labels (st : St) (d : Doc) :
    (render_resource_limits st d).labels = d.labels := by
  unfold render_resource_limits
  cases st.resource_limits <;> rfl

@[simp]
theorem set_reactor_config_triggers (ext : Ext) (st : St) (d : Doc) :
    (set_reactor_config ext st d).triggers = d.triggers := by
  unfold set_reactor_config
  split <;> first | rfl | (split <;> rfl)

@[simp]
theorem set_reactor_config_labels (ext : Ext) (st : St) (d : Doc) :
    (set_reactor_config ext st d).labels = d.labels := by
  unfold set_reactor_config
  split <;> first | rfl | (split <;> rfl)

@[simp]
theorem render_user_params_frame (ext : Ext) (st : St) (d : Doc) :
    (render_user_params ext st d).triggers = d.triggers
    ∧ (render_user_params ext st d).labels = d.labels := ⟨rfl, rfl⟩

@[simp]
theorem delete_placeholder_frame (d : Doc) :
    (delete_atomic_reactor_placeholder d).triggers = d.triggers
    ∧ (delete_atomic_reactor_placeholder d).labels = d.labels := ⟨rfl, rfl⟩

@[simp]
theorem set_required_secrets_impl_triggers (req : List String) (d : Doc) :
    (set_required_secrets_impl req d).triggers = d.triggers := by
  unfold set_required_secrets_impl
  split <;> rfl

@[simp]
theorem set_required_secrets_impl_labels (req : List String) (d : Doc) :
    (set_required_secrets_impl req d).labels = d.labels := by
  unfold set_required_secrets_impl
  split <;> rfl

@[simp]
theorem set_required_secrets_v2_triggers (st : St) (rd : RData) (d : Doc) :
    (set_required_secrets_v2 st rd d).triggers = d.triggers := by
  unfold set_required_secrets_v2
  simp

@[simp]
theorem set_required_secrets_v2_labels (st : St) (rd : RData) (d : Doc) :
    (set_required_secrets_v2 st rd d).labels = d.labels := by
  unfold set_required_secrets_v2
  simp

theorem adjust_for_scratch_triggers (ext : Ext) (st : St) (d : Doc) :
    (adjust_for_scratch ext st d).triggers
      = if st.scratch then none else d.triggers := by
  unfold adjust_for_scratch
  split <;> simp_all

theorem render_name_ok_frame (st : St) (d0 d : Doc)
    (h : render_name st d0 = .ok d) :
    d.triggers = d0.triggers ∧ d.labels = d0.labels := by
  unfold render_name at h
  split at h
  · cases htag : st.user_params.image_tag with
    | none =>
      rw [htag] at h
      simp at h
    | some tag =>
      rw [htag] at h
      simp only [] at h
      cases hrs : rsplit2 (stripPlatformSuffix tag st.user_params.platform) with
      | none =>
        rw [hrs] at h
        simp at h
      | some triple =>
        obtain ⟨pre, salt, ts⟩ := triple
        rw [hrs] at h
        simp only [] at h
        injection h with h2
        subst h2
        exact ⟨rfl, rfl⟩
  · injection h with h2
    subst h2
    exact ⟨rfl, rfl⟩

theorem renderBasePure_triggers (ext : Ext) (st : St) (d : Doc) :
    (renderBasePure ext st d).triggers
      = if st.scratch then none else d.triggers := by
  unfold renderBasePure
  simp [adjust_for_scratch_triggers]

theorem applyReactorData_frame (st : St) (rd : RData) :
    (applyReactorData st rd).template.triggers = st.template.triggers
    ∧ (applyReactorData st rd).template.labels = st.template.labels
    ∧ (applyReactorData st rd).scratch = st.scratch
    ∧ (applyReactorData st rd).isolated = st.isolated
    ∧ (applyReactorData st rd).base_image = st.base_image
    ∧ (applyReactorData st rd).user_params = st.user_params := by
  unfold applyReactorData
  cases rd.source_registry <;> cases rd.registries_organization <;>
    exact ⟨by simp, by simp, rfl, rfl, rfl, rfl⟩

theorem set_data_from_reactor_config_ok_frame (st : St) (data : Option RData)
    (st1 : St) (h : set_data_from_reactor_config st data = .ok st1) :
    st1.template.triggers = st.template.triggers
    ∧ st1.template.labels = st.template.labels
    ∧ st1.scratch = st.scratch
    ∧ st1.isolated = st.isolated
    ∧ (st.user_params.flatpak = false → st1.base_image = st.base_image) := by
  unfold set_data_from_reactor_config at h
  split at h
  · split at h
    · simp at h
    · injection h with h2
      subst h2
      exact ⟨rfl, rfl, rfl, rfl, fun _ => rfl⟩
  · rename_i rd
    obtain ⟨f1, f2, f3, f4, f5, f6⟩ := applyReactorData_frame st rd
    simp only [] at h
    split at h
    · rename_i hflat
      split at h
      · injection h with h2
        subst h2
        refine ⟨f1, f2, f3, f4, fun hfp => ?_⟩
        rw [f6] at hflat
        rw [hfp] at hflat
        cases hflat
      · simp at h
    · injection h with h2
      subst h2
      exact ⟨f1, f2, f3, f4, fun _ => f5⟩

theorem renderBase_ok_frame (ext : Ext) (st : St) (validate : Bool) (st1 : St)
    (h : renderBase ext st validate = .ok st1) :
    st1.scratch = st.scratch
    ∧ st1.isolated = st.isolated
    ∧ st1.template.triggers = (if st.scratch then none else st.template.triggers)
    ∧ (st.user_params.flatpak = false → st1.base_image = st.base_image) := by
  unfold renderBase at h
  split at h
  · simp at h
  · split at h
    · simp at h
    · cases hrn : render_name st st.template with
      | error e =>
        rw [hrn] at h
        simp at h
      | ok dnm =>
        rw [hrn] at h
        obtain ⟨g1, g2, g3, g4, g5⟩ :=
          set_data_from_reactor_config_ok_frame _ _ _ h
        obtain ⟨n1, n2⟩ := render_name_ok_frame st st.template dnm hrn
        refine ⟨g3, g4, ?_, g5⟩
        rw [g1]
        show (renderBasePure ext st dnm).triggers = _
        rw [renderBasePure_triggers, n1]

theorem setTrigger0Name_labels (d : Doc) (nm : Option String) :
    (setTrigger0Name d nm).labels = d.labels := by
  unfold setTrigger0Name
  cases d.triggers with
  | none => rfl
  | some l => cases l <;> rfl

theorem tailPre_triggers_none (ext : Ext) (st : St) (d : Doc)
    (h : d.triggers = none) : (tailPre ext st d).triggers = none := by
  have h1 : has_ist_trigger
      { d with gitUri := st.user_params.git_uri
               gitRef := st.user_params.git_ref } = false := by
    simp [has_ist_trigger, h]
  simp only [tailPre, h1]
  cases hk : st.user_params.koji_task_id <;>
    by_cases htk : st.triggered_after_koji_task = none <;>
      simp [hk, htk, h]

theorem tailPre_triggers_cons (ext : Ext) (st : St) (d : Doc)
    (t : Trigger) (r : List Trigger) (h : d.triggers = some (t :: r)) :
    ∃ t', (tailPre ext st d).triggers = some (t' :: r) := by
  simp only [tailPre]
  set d1 : Doc := { d with gitUri := st.user_params.git_uri
                           gitRef := st.user_params.git_ref } with hd1
  have hd1t : d1.triggers = some (t :: r) := h
  by_cases h1 : has_ist_trigger d1
  · refine ⟨{ t with fromName := st.user_params.trigger_imagestreamtag }, ?_⟩
    have h2 : (setTrigger0Name d1 st.user_params.trigger_imagestreamtag).triggers
        = some ({ t with fromName := st.user_params.trigger_imagestreamtag } :: r) := by
      unfold setTrigger0Name
      rw [hd1t]
    cases hk : st.user_params.koji_task_id <;>
      by_cases htk : st.triggered_after_koji_task = none <;>
        simp [hk, htk, h1, h2, h]
  · refine ⟨t, ?_⟩
    cases hk : st.user_params.koji_task_id <;>
      by_cases htk : st.triggered_after_koji_task = none <;>
        simp [hk, htk, h1, hd1t, h]

theorem customTriggerAdjust_of_none (st : St) (d : Doc)
    (h : d.triggers = none) : customTriggerAdjust st d = d := by
  unfold customTriggerAdjust
  simp [h]

theorem customTriggerAdjust_of_custom (st : St) (d : Doc)
    (t : Trigger) (r : List Trigger) (h : d.triggers = some (t :: r))
    (hb : (is_custom_base_image st.base_image
      || is_from_scratch_image st.base_image) = true) :
    (customTriggerAdjust st d).triggers = none := by
  unfold customTriggerAdjust
  simp [h, hb]

theorem adjust_for_repo_info_ok_frame (st : St) (d d' : Doc)
    (h : adjust_for_repo_info st d = .ok d') :
    d'.labels = d.labels ∧ (d'.triggers = d.triggers ∨ d'.triggers = none) := by
  unfold adjust_for_repo_info at h
  repeat' split at h
  all_goals
    first
    | (injection h with h2
       subst h2
       first
       | exact ⟨rfl, Or.inl rfl⟩
       | exact ⟨rfl, Or.inr rfl⟩)
    | simp at h

theorem adjust_for_isolated_ok_frame (ext : Ext) (st : St) (d d' : Doc)
    (h : adjust_for_isolated ext st d = .ok d') :
    (st.isolated = false ∧ d' = d) ∨ d'.triggers = none := by
  unfold adjust_for_isolated at h
  split at h
  · injection h with h2
    subst h2
    left
    rename_i hni
    simp only [Bool.not_eq_true'] at hni
    exact ⟨hni, rfl⟩
  · split at h
    · simp at h
    · simp only [] at h
      split at h
      · simp at h
      · injection h with h2
        subst h2
        right
        rfl

@[simp]
theorem render_node_selectors_frame (st : St) (d : Doc) :
    (render_node_selectors st d).triggers = d.triggers
    ∧ (render_node_selectors st d).labels = d.labels := by
  unfold render_node_selectors
  split <;> exact ⟨rfl, rfl⟩

@[simp]
theorem set_deadline_v2_frame (st : St) (d : Doc) :
    (set_deadline_v2 st d).triggers = d.triggers
    ∧ (set_deadline_v2 st d).labels = d.labels := by
  unfold set_deadline_v2
  constructor <;> (simp only []; repeat' split) <;> rfl

theorem renderTail_ok_triggers (ext : Ext) (st1 st2 : St)
    (h : renderTail ext st1 = .ok st2)
    (hcase : st1.template.triggers = none ∨ st1.isolated = true
      ∨ ∃ t r, st1.template.triggers = some (t :: r)
        ∧ (is_custom_base_image st1.base_image
          || is_from_scratch_image st1.base_image) = true) :
    st2.template.triggers = none := by
  simp only [renderTail] at h
  have hd0 : (customTriggerAdjust st1 (tailPre ext st1 st1.template)).triggers = none
      ∨ st1.isolated = true := by
    rcases hcase with hc | hc | ⟨t, r, hc, hb⟩
    · left
      have hp := tailPre_triggers_none ext st1 st1.template hc
      rw [customTriggerAdjust_of_none st1 _ hp]
      exact hp
    · right
      exact hc
    · left
      obtain ⟨t', hp⟩ := tailPre_triggers_cons ext st1 st1.template t r hc
      exact customTriggerAdjust_of_custom st1 _ t' r hp hb
  cases hrepo : adjust_for_repo_info st1
      (customTriggerAdjust st1 (tailPre ext st1 st1.template)) with
  | error e =>
    rw [hrepo] at h
    simp at h
  | ok d1 =>
    rw [hrepo] at h
    simp only [] at h
    obtain ⟨hl1, ht1⟩ := adjust_for_repo_info_ok_frame _ _ _ hrepo
    cases hisol : adjust_for_isolated ext st1 d1 with
    | error e =>
      rw [hisol] at h
      simp at h
    | ok d2 =>
      rw [hisol] at h
      simp only [] at h
      injection h with h2
      subst h2
      have hd2 : d2.triggers = none := by
        rcases adjust_for_isolated_ok_frame ext st1 d1 d2 hisol with ⟨hni, rfl⟩ | hn
        · rcases hd0 with hn0 | hi0
          · rcases ht1 with he | he
            · rw [he]
              exact hn0
            · exact he
          · rw [hi0] at hni
            cases hni
        · exact hn
      show (set_deadline_v2 st1 (render_node_selectors st1 d2)).triggers = none
      rw [(set_deadline_v2_frame st1 _).1, (render_node_selectors_frame st1 _).1]
      exact hd2

/-! ## Label sanitization invariant (C10) -/

/-- Every label value present in the document is a string in the image of
the external sanitizer (in particular, none is `None`). -/
def LabelsSanitized (ext : Ext) (d : Doc) : Prop :=
  ∀ kv ∈ d.labels.getD [], ∃ s, kv.2 = some (ext.sanitize s)

theorem labelsSan_congr (ext : Ext) (d d' : Doc) (h : d'.labels = d.labels) :
    LabelsSanitized ext d → LabelsSanitized ext d' := by
  intro hS kv hkv
  rw [h] at hkv
  exact hS kv hkv

theorem labelsSan_set_label (ext : Ext) (d : Doc) (nm : String)
    (v : Option String) (hS : LabelsSanitized ext d) :
    LabelsSanitized ext (set_label ext d nm v) := by
  intro kv hkv
  unfold set_label at hkv
  simp only [Option.getD_some] at hkv
  rcases mem_alSet _ _ _ _ hkv with h | h
  · exact ⟨_, congrArg Prod.snd h⟩
  · exact hS kv h

theorem labelsSan_adjust_for_scratch (ext : Ext) (st : St) (d : Doc)
    (hS : LabelsSanitized ext d) :
    LabelsSanitized ext (adjust_for_scratch ext st d) := by
  unfold adjust_for_scratch
  split
  · exact labelsSan_set_label ext _ _ _ (labelsSan_congr ext d _ rfl hS)
  · exact hS

theorem labelsSan_renderBasePure (ext : Ext) (st : St) (d : Doc)
    (hS : LabelsSanitized ext d) :
    LabelsSanitized ext (renderBasePure ext st d) := by
  unfold renderBasePure
  apply labelsSan_congr ext _ _ (delete_placeholder_frame _).2
  apply labelsSan_congr ext _ _ (render_user_params_frame ext st _).2
  apply labelsSan_congr ext _ _ (set_reactor_config_labels ext st _)
  apply labelsSan_adjust_for_scratch
  apply labelsSan_congr ext _ _ (render_resource_limits_labels st _)
  apply labelsSan_congr ext _ _ (render_custom_strategy_labels st _)
  exact labelsSan_congr ext _ _ (render_output_name_frame st d).2 hS

theorem labelsSan_renderBase (ext : Ext) (st : St) (validate : Bool) (st1 : St)
    (h : renderBase ext st validate = .ok st1)
    (hS : LabelsSanitized ext st.template) :
    LabelsSanitized ext st1.template := by
  unfold renderBase at h
  split at h
  · simp at h
  · split at h
    · simp at h
    · cases hrn : render_name st st.template with
      | error e =>
        rw [hrn] at h
        simp at h
      | ok dnm =>
        rw [hrn] at h
        obtain ⟨_, g2, _, _, _⟩ := set_data_from_reactor_config_ok_frame _ _ _ h
        apply labelsSan_congr ext _ _ g2
        show LabelsSanitized ext (renderBasePure ext st dnm)
        apply labelsSan_renderBasePure
        exact labelsSan_congr ext _ _
          (render_name_ok_frame st st.template dnm hrn).2 hS

theorem labelsSan_tailPre (ext : Ext) (st : St) (d : Doc)
    (hS : LabelsSanitized ext d) :
    LabelsSanitized ext (tailPre ext st d) := by
  simp only [tailPre]
  set d1 : Doc := { d with gitUri := st.user_params.git_uri
                           gitRef := st.user_params.git_ref } with hd1
  have hS1 : LabelsSanitized ext d1 := labelsSan_congr ext d d1 rfl hS
  have hS2 : LabelsSanitized ext
      (if has_ist_trigger d1 then
        setTrigger0Name d1 st.user_params.trigger_imagestreamtag
      else d1) := by
    split
    · exact labelsSan_congr ext d1 _ (setTrigger0Name_labels d1 _) hS1
    · exact hS1
  have hS3 := labelsSan_set_label ext _ "git-repo-name"
    (some (ext.repoHumanish st.user_params.git_uri)) hS2
  have hS4 := labelsSan_set_label ext _ "git-branch"
    st.user_params.git_branch hS3
  have hS5 := labelsSan_set_label ext _ "git-full-repo"
    st.user_params.git_uri hS4
  cases hk : st.user_params.koji_task_id with
  | none => exact hS5
  | some k =>
    have hS6 := labelsSan_set_label ext _ "koji-task-id" (some k) hS5
    simp only []
    by_cases htk : st.triggered_after_koji_task = none
    · rw [if_pos htk]
      exact labelsSan_set_label ext _ "original-koji-task-id" (some k) hS6
    · rw [if_neg htk]
      exact hS6

theorem labelsSan_customTriggerAdjust (ext : Ext) (st : St) (d : Doc)
    (hS : LabelsSanitized ext d) :
    LabelsSanitized ext (customTriggerAdjust st d) := by
  unfold customTriggerAdjust
  split
  · exact labelsSan_congr ext d _ rfl hS
  · exact hS

theorem labelsSan_adjust_for_isolated (ext : Ext) (st : St) (d d' : Doc)
    (h : adjust_for_isolated ext st d = .ok d')
    (hS : LabelsSanitized ext d) :
    LabelsSanitized ext d' := by
  unfold adjust_for_isolated at h
  split at h
  · injection h with h2
    subst h2
    exact hS
  · split at h
    · simp at h
    · simp only [] at h
      split at h
      · simp at h
      · injection h with h2
        subst h2
        apply labelsSan_set_label
        apply labelsSan_set_label
        exact labelsSan_congr ext d _ rfl hS

theorem labelsSan_renderTail (ext : Ext) (st1 st2 : St)
    (h : renderTail ext st1 = .ok st2)
    (hS : LabelsSanitized ext st1.template) :
    LabelsSanitized ext st2.template := by
  simp only [renderTail] at h
  cases hrepo : adjust_for_repo_info st1
      (customTriggerAdjust st1 (tailPre ext st1 st1.template)) with
  | error e =>
    rw [hrepo] at h
    simp at h
  | ok d1 =>
    rw [hrepo] at h
    simp only [] at h
    obtain ⟨hl1, _⟩ := adjust_for_repo_info_ok_frame _ _ _ hrepo
    cases hisol : adjust_for_isolated ext st1 d1 with
    | error e =>
      rw [hisol] at h
      simp at h
    | ok d2 =>
      rw [hisol] at h
      simp only [] at h
      injection h with h2
      subst h2
      show LabelsSanitized ext (set_deadline_v2 st1 (render_node_selectors st1 d2))
      apply labelsSan_congr ext _ _ (set_deadline_v2_frame st1 _).2
      apply labelsSan_congr ext _ _ (render_node_selectors_frame st1 _).2
      apply labelsSan_adjust_for_isolated ext st1 d1 d2 hisol
      apply labelsSan_congr ext _ _ hl1
      apply labelsSan_customTriggerAdjust
      exact labelsSan_tailPre ext st1 _ hS

/-! ## C2: trigger removal per build variation -/

/-- C2 (amended): every successful render of a scratch or isolated build
produces a document with no `spec.triggers` entry; the auto variation does
not remove triggers (see the counterexample). -/
theorem claim_C2_scratch_isolated_triggers (ext : Ext) (st : St)
    (validate : Bool) (st2 : St)
    (hvar : st.scratch = true ∨ st.isolated = true)
    (h : renderV2 ext st validate = .ok st2) :
    st2.template.triggers = none := by
  unfold renderV2 at h
  cases hb : renderBase ext st validate with
  | error e =>
    rw [hb] at h
    simp at h
  | ok st1 =>
    rw [hb] at h
    obtain ⟨hsc, hiso, htr, _⟩ := renderBase_ok_frame ext st validate st1 hb
    apply renderTail_ok_triggers ext st1 st2 h
    rcases hvar with hv | hv
    · left
      rw [htr, hv]
      simp
    · right
      left
      rw [hiso]
      exact hv

/-- The image-stream-tag trigger entry used in concrete render states. -/
def trigIst : Trigger := ⟨"ImageChange", "ImageStreamTag", some "repo:latest"⟩

/-- A complete auto-build (is_auto) state whose template defines a trigger:
base image unset, no repo info, orchestrator build type, no reactor
config. -/
def stAutoCex : St :=
  { template := { triggers := some [trigIst]
                  env := [⟨"ATOMIC_REACTOR_PLUGINS", .plain "placeholder"⟩] }
    is_auto := true
    osbs_api := true
    user_params := { name := some "comp-branch"
                     git_uri := some "git://host/repo"
                     git_ref := some "abcdef"
                     trigger_imagestreamtag := some "comp:tag"
                     build_type := some "orchestrator" } }

/-- C2 counterexample: an auto (`is_auto`) build renders successfully and
the rendered document still contains its `spec.triggers` entry —
the auto variation does not remove triggers, refuting "all three
variations remove build triggers". -/
theorem claim_C2_counterexample :
    isOkE (renderV2 extId stAutoCex true) = true
    ∧ (renderResultSt (renderV2 extId stAutoCex true) stAutoCex).template.triggers
      = some [⟨"ImageChange", "ImageStreamTag", some "comp:tag"⟩] := by
  decide

/-- A complete scratch-build state whose template defines a trigger. -/
def stScratchCex : St :=
  { template := { triggers := some [trigIst] }
    scratch := true
    osbs_api := true
    user_params := { image_tag := some "myimage-abc123-20200101000000"
                     build_type := some "orchestrator" } }

/-- Witness for C2 at a concrete scratch render: the render succeeds and
the rendered document has no triggers. -/
theorem claim_C2_witness :
    (stScratchCex.scratch = true ∨ stScratchCex.isolated = true)
    ∧ (renderResultSt (renderV2 extId stScratchCex true) stScratchCex).template.triggers
      = none :=
  ⟨Or.inl rfl,
   claim_C2_scratch_isolated_triggers extId stScratchCex true _ (Or.inl rfl)
     (by decide)⟩

/-! ## C8: trigger removal for custom/scratch base images -/

/-- C8 (amended): for every `BuildRequestV2` render of a non-flatpak build
whose template defines a non-empty trigger list and whose base image
matches `koji/image-build[:tag]` or is the literal `scratch`, the rendered
document contains no `spec.triggers` entry.  The restriction to non-flatpak
builds is forced: `_set_flatpak` replaces the configured base image with
the flatpak base image from reactor data before the trigger check runs, so
a flatpak render whose configured base image is custom or `scratch` can
keep its triggers (see the counterexample). -/
theorem claim_C8_custom_base_triggers (ext : Ext) (st : St)
    (validate : Bool) (st2 : St) (ts : List Trigger)
    (hfp : st.user_params.flatpak = false)
    (ht : st.template.triggers = some ts) (hne : ts ≠ [])
    (hbase : (is_custom_base_image st.base_image
      || is_from_scratch_image st.base_image) = true)
    (h : renderV2 ext st validate = .ok st2) :
    st2.template.triggers = none := by
  unfold renderV2 at h
  cases hb : renderBase ext st validate with
  | error e =>
    rw [hb] at h
    simp at h
  | ok st1 =>
    rw [hb] at h
    obtain ⟨hsc, hiso, htr, hbi⟩ := renderBase_ok_frame ext st validate st1 hb
    apply renderTail_ok_triggers ext st1 st2 h
    by_cases hs : st.scratch
    · left
      rw [htr, hs]
      simp
    · right
      right
      cases ts with
      | nil => exact absurd rfl hne
      | cons t r =>
        refine ⟨t, r, ?_, ?_⟩
        · rw [htr]
          simp only [Bool.not_eq_true] at hs
          rw [hs]
          simp only [Bool.false_eq_true, if_false]
          exact ht
        · rw [hbi hfp]
          exact hbase

/-- Reactor-config data supplying an ordinary flatpak base image. -/
def rdFlatpak : RData := { flatpak_base_image := some "registry/flatpak-base:latest" }

/-- A complete flatpak-build state whose configured base image is the
custom marker `koji/image-build:v1` and whose template defines a trigger;
the reactor-config override supplies the flatpak base image that
`_set_flatpak` substitutes before the trigger check. -/
def stC8flatpak : St :=
  { template := { triggers := some [trigIst] }
    base_image := some "koji/image-build:v1"
    osbs_api := true
    user_params := { name := some "comp-branch"
                     flatpak := true
                     reactor_config_override := some rdFlatpak
                     trigger_imagestreamtag := some "comp:tag"
                     build_type := some "orchestrator" } }

/-- C8 counterexample: a flatpak build configured with the custom base
image `koji/image-build:v1` and a triggered template renders successfully,
yet the rendered document still contains its `spec.triggers` entry —
`_set_flatpak` overwrote the base image with the reactor-data flatpak base
before the line-499 trigger check, so the claim as stated (quantifying over
every render with a custom/scratch configured base image) fails. -/
theorem claim_C8_counterexample :
    is_custom_base_image stC8flatpak.base_image = true
    ∧ stC8flatpak.template.triggers = some [trigIst]
    ∧ isOkE (renderV2 extId stC8flatpak true) = true
    ∧ (renderResultSt (renderV2 extId stC8flatpak true) stC8flatpak).template.triggers
      = some [⟨"ImageChange", "ImageStreamTag", some "comp:tag"⟩] := by
  decide

/-- A complete state with a triggered template and the literal `scratch`
base image. -/
def stC8scratchBase : St :=
  { template := { triggers := some [trigIst] }
    base_image := some "scratch"
    osbs_api := true
    user_params := { name := some "comp-branch"
                     build_type := some "orchestrator" } }

/-- A complete state with a triggered template and a custom
(`koji/image-build:v1`) base image. -/
def stC8custom : St :=
  { template := { triggers := some [trigIst] }
    base_image := some "koji/image-build:v1"
    osbs_api := true
    user_params := { name := some "comp-branch"
                     build_type := some "orchestrator" } }

/-- Witness for C8 at the spec's examples: base image `koji/image-build:v1`
and base image `scratch` both yield rendered documents without triggers. -/
theorem claim_C8_witness :
    (renderResultSt (renderV2 extId stC8custom true) stC8custom).template.triggers
      = none
    ∧ (renderResultSt (renderV2 extId stC8scratchBase true) stC8scratchBase).template.triggers
      = none :=
  ⟨claim_C8_custom_base_triggers extId stC8custom true _ [trigIst] rfl rfl
     (by decide) (by decide) (by decide),
   claim_C8_custom_base_triggers extId stC8scratchBase true _ [trigIst] rfl rfl
     (by decide) (by decide) (by decide)⟩

/-! ## C10: label writing discipline -/

/-- C10 (amended): `set_label` creates `metadata.labels` when absent,
replaces a falsy value (`None`/empty) with the empty string, and stores the
sanitized value; consequently every label the pipeline writes is a
sanitized string and never `None`, and every successful render of a
template whose pre-existing labels are sanitized strings yields a document
whose label values are all sanitized strings.  Labels already present in
the loaded template are not re-sanitized (see the counterexample). -/
theorem claim_C10_label_sanitization (ext : Ext) :
    (∀ d nm v, ∃ l, (set_label ext d nm v).labels = some l
      ∧ alGet l nm = some (some (ext.sanitize (if truthy v then v.getD "" else ""))))
    ∧ (∀ st validate st2, LabelsSanitized ext st.template →
      renderV2 ext st validate = .ok st2 → LabelsSanitized ext st2.template) := by
  constructor
  · intro d nm v
    refine ⟨alSet (d.labels.getD []) nm
      (some (ext.sanitize (if truthy v then v.getD "" else ""))), rfl, ?_⟩
    exact alGet_alSet_self _ _ _
  · intro st validate st2 hS h
    unfold renderV2 at h
    cases hb : renderBase ext st validate with
    | error e =>
      rw [hb] at h
      simp at h
    | ok st1 =>
      rw [hb] at h
      exact labelsSan_renderTail ext st1 st2 h
        (labelsSan_renderBase ext st validate st1 hb hS)

/-- A complete state whose loaded template already carries a label with the
JSON value `null` (Python `None`). -/
def stPreCex : St :=
  { template := { labels := some [("pre", none)] }
    osbs_api := true
    user_params := { build_type := some "worker" } }

/-- C10 counterexample: the render succeeds and the rendered document still
maps label `pre` to `None` — labels inherited from the loaded template are
not rewritten by `set_label`, refuting "in every rendered document ... no
label value is None". -/
theorem claim_C10_counterexample :
    isOkE (renderV2 extId stPreCex true) = true
    ∧ alGet ((renderResultSt (renderV2 extId stPreCex true) stPreCex).template.labels.getD [])
        "pre" = some none := by
  decide

/-- A complete state with no labels in the loaded template. -/
def stC10ok : St :=
  { template := {}
    osbs_api := true
    user_params := { git_branch := some "master" } }

/-- Witness for C10 at concrete inputs: writing a `None` label value stores
the sanitized empty string, and a full render starting from a label-free
template yields only sanitized label values. -/
theorem claim_C10_witness :
    alGet ((set_label extId ({} : Doc) "scratch" none).labels.getD []) "scratch"
      = some (some (extId.sanitize ""))
    ∧ LabelsSanitized extId
      (renderResultSt (renderV2 extId stC10ok true) stC10ok).template := by
  constructor
  · obtain ⟨l, hl, hg⟩ := (claim_C10_label_sanitization extId).1 {} "scratch" none
    simp only [hl, Option.getD_some]
    simpa using hg
  · refine (claim_C10_label_sanitization extId).2 stC10ok true _ ?_ ?_
    · intro kv hkv
      simp [stC10ok] at hkv
    · show renderV2 extId stC10ok true
        = .ok (renderResultSt (renderV2 extId stC10ok true) stC10ok)
      decide

end Osbs
